import Mathlib

/-!
Verification development for `gitreceive.py`: a shallow embedding of the
key-registry, command-dispatcher and push-pipeline logic of the script,
together with theorems settling the specification's testable properties.

Python strings are modelled as Lean `String`; byte strings as `List Nat`
(each element a byte value); machine behaviour such as uncaught exceptions
is modelled by explicit outcome constructors.  Filesystem effects of the
dispatcher are modelled by an explicit state (`SysState`) plus an event
trace (`Ev`).
-/

namespace Gitreceive

/-! ## Python string primitives used by the source -/

/-- Characters Python's `str.split()` (no argument) treats as whitespace. -/
def pyIsSpace (c : Char) : Bool :=
  c = ' ' || c = '\t' || c = '\n' || c = '\r' || c = Char.ofNat 11 || c = Char.ofNat 12

/-- Accumulator-style worker for whitespace splitting: `cur` is the current
token being read, in reverse order. -/
def pySplitAux : List Char → List Char → List (List Char)
  | [], cur => if cur.isEmpty then [] else [cur.reverse]
  | c :: rest, cur =>
    if pyIsSpace c then
      (if cur.isEmpty then pySplitAux rest [] else cur.reverse :: pySplitAux rest [])
    else pySplitAux rest (c :: cur)

/-- Python `s.split()`: split on runs of whitespace, discarding empty tokens. -/
def pysplit (s : String) : List String :=
  (pySplitAux s.toList []).map (fun l => ⟨l⟩)

/-- Python `s.strip(c)` for a single strip character: remove every leading and
trailing occurrence of `c`. -/
def pyStripChar (ch : Char) (s : String) : String :=
  ⟨(((s.toList.dropWhile (· = ch)).reverse.dropWhile (· = ch)).reverse)⟩

/-- Python `s.lstrip(c)` for a single strip character: remove every leading
occurrence of `c`. -/
def pyLstripChar (ch : Char) (s : String) : String :=
  ⟨s.toList.dropWhile (· = ch)⟩

/-- Python `s.strip()`: remove leading and trailing whitespace. -/
def pyStripWs (s : String) : String :=
  ⟨(((s.toList.dropWhile pyIsSpace).reverse.dropWhile pyIsSpace).reverse)⟩

/-- Python `s.startswith(pre)`. -/
def pyStartsWith (pre s : String) : Bool :=
  pre.toList.isPrefixOf s.toList

/-- Does `needle` occur as a contiguous sublist of the second argument?
(Python's `needle in hay` on strings.) -/
def isSubList (needle : List Char) : List Char → Bool
  | [] => needle.isPrefixOf []
  | c :: rest => needle.isPrefixOf (c :: rest) || isSubList needle rest

/-- Python `needle in hay` for strings. -/
def containsSub (needle hay : String) : Bool :=
  isSubList needle.toList hay.toList

/-- Worker for `afterFirstMarker`: the suffix strictly after the first
occurrence of `sep`, if `sep` occurs. -/
def afterFirstAux (sep : List Char) : List Char → Option (List Char)
  | [] => if sep.isPrefixOf [] then some [] else none
  | c :: rest =>
    if sep.isPrefixOf (c :: rest) then some ((c :: rest).drop sep.length)
    else afterFirstAux sep rest

/-- Python `line.split(sep, 1)[-1]` for a nonempty `sep`: everything after the
first occurrence of `sep`, or the whole line when `sep` does not occur. -/
def afterFirstMarker (sep line : String) : String :=
  match afterFirstAux sep.toList line.toList with
  | some r => ⟨r⟩
  | none => line

/-- Worker for `splitNl`: split at every separator character, keeping empty
pieces (`cur` is the current piece, reversed). -/
def splitCharAux (sep : Char) : List Char → List Char → List (List Char)
  | [], cur => [cur.reverse]
  | c :: rest, cur =>
    if c = sep then cur.reverse :: splitCharAux sep rest []
    else splitCharAux sep rest (c :: cur)

/-- Python `s.split('\n')`: split at every newline, keeping empty pieces. -/
def splitNl (s : String) : List String :=
  (splitCharAux '\n' s.toList []).map (fun l => ⟨l⟩)

/-! ## Model of the library primitives `base64.b64decode` and `hashlib.md5`

The source delegates to the Python standard library for base64 decoding and
for the MD5 digest; both are modelled here as executable functions on byte
lists (`List Nat`, each element a byte value). -/

/-- Value of one base64 alphabet character, `none` for characters outside the
alphabet (which `binascii.a2b_base64` skips) and for the `=` pad. -/
def b64val (c : Char) : Option Nat :=
  if 'A' ≤ c ∧ c ≤ 'Z' then some (c.toNat - 65)
  else if 'a' ≤ c ∧ c ≤ 'z' then some (c.toNat - 71)
  else if '0' ≤ c ∧ c ≤ '9' then some (c.toNat + 4)
  else if c = '+' then some 62
  else if c = '/' then some 63
  else none

/-- The next character of the list that `binascii.a2b_base64` considers
valid — an alphabet character or the `=` pad — used for its pad lookahead. -/
def nextValid : List Char → Option Char
  | [] => none
  | c :: rest => if c = '=' || (b64val c).isSome then some c else nextValid rest

/-- The decoding loop of `binascii.a2b_base64`: `qp` is the position within
the current quad (number of alphabet characters seen, mod 4), `lb` the
number of buffered bits, `lc` the buffered bit value.  A pad at quad
position 0 or 1, or at position 2 with no following pad, is ignored; a pad
at position 3, or at position 2 whose next valid character is another pad,
terminates decoding (discarding buffered bits); other non-alphabet
characters are skipped.  If buffered bits remain at the end of input the
call raises `binascii.Error` ("Incorrect padding"), modelled as `none`. -/
def a2bBase64 (l : List Char) (qp lb lc : Nat) : Option (List Nat) :=
  match l with
  | [] => if lb = 0 then some [] else none
  | c :: rest =>
    if c = '=' then
      if qp < 2 ∨ (qp = 2 ∧ nextValid rest ≠ some '=') then a2bBase64 rest qp lb lc
      else some []
    else
      match b64val c with
      | none => a2bBase64 rest qp lb lc
      | some v =>
        if lb + 6 ≥ 8 then
          (a2bBase64 rest ((qp + 1) % 4) (lb + 6 - 8)
              ((lc * 64 + v) % 2 ^ (lb + 6 - 8))).map
            (fun bs => (lc * 64 + v) / 2 ^ (lb + 6 - 8) % 256 :: bs)
        else a2bBase64 rest ((qp + 1) % 4) (lb + 6) (lc * 64 + v)

/-- Model of `base64.b64decode` on a text argument (Python 2's
`binascii.a2b_base64`, which Python 3's lenient mode preserves): `none`
models the `binascii.Error` ("Incorrect padding") raised when leftover bits
remain, e.g. for `QQ`; decoding stops at a terminating pad sequence, so
`QQ==QUJD` yields only `[65]`. -/
def b64decode (s : String) : Option (List Nat) :=
  a2bBase64 s.toList 0 0 0

/-- Truncation to a 32-bit word. -/
def w32 (n : Nat) : Nat := n % 4294967296

/-- 32-bit bitwise complement (argument first reduced to 32 bits). -/
def cpl32 (n : Nat) : Nat := 4294967295 - n % 4294967296

/-- 32-bit left rotation by `s` places. -/
def rotl (x s : Nat) : Nat :=
  w32 (x % 4294967296 * 2 ^ s + x % 4294967296 / 2 ^ (32 - s))

/-- MD5 round function F (rounds 0-15). -/
def mdF (b c d : Nat) : Nat := Nat.lor (Nat.land b c) (Nat.land (cpl32 b) d)

/-- MD5 round function G (rounds 16-31). -/
def mdG (b c d : Nat) : Nat := Nat.lor (Nat.land d b) (Nat.land (cpl32 d) c)

/-- MD5 round function H (rounds 32-47). -/
def mdH (b c d : Nat) : Nat := Nat.xor b (Nat.xor c d)

/-- MD5 round function I (rounds 48-63). -/
def mdI (b c d : Nat) : Nat := Nat.xor c (Nat.lor b (cpl32 d))

/-- The MD5 sine-derived round constants. -/
def mdK : List Nat :=
  [0xd76aa478, 0xe8c7b756, 0x242070db, 0xc1bdceee,
   0xf57c0faf, 0x4787c62a, 0xa8304613, 0xfd469501,
   0x698098d8, 0x8b44f7af, 0xffff5bb1, 0x895cd7be,
   0x6b901122, 0xfd987193, 0xa679438e, 0x49b40821,
   0xf61e2562, 0xc040b340, 0x265e5a51, 0xe9b6c7aa,
   0xd62f105d, 0x02441453, 0xd8a1e681, 0xe7d3fbc8,
   0x21e1cde6, 0xc33707d6, 0xf4d50d87, 0x455a14ed,
   0xa9e3e905, 0xfcefa3f8, 0x676f02d9, 0x8d2a4c8a,
   0xfffa3942, 0x8771f681, 0x6d9d6122, 0xfde5380c,
   0xa4beea44, 0x4bdecfa9, 0xf6bb4b60, 0xbebfbc70,
   0x289b7ec6, 0xeaa127fa, 0xd4ef3085, 0x04881d05,
   0xd9d4d039, 0xe6db99e5, 0x1fa27cf8, 0xc4ac5665,
   0xf4292244, 0x432aff97, 0xab9423a7, 0xfc93a039,
   0x655b59c3, 0x8f0ccc92, 0xffeff47d, 0x85845dd1,
   0x6fa87e4f, 0xfe2ce6e0, 0xa3014314, 0x4e0811a1,
   0xf7537e82, 0xbd3af235, 0x2ad7d2bb, 0xeb86d391]

/-- The MD5 per-round left-rotation amounts. -/
def mdS : List Nat :=
  [7, 12, 17, 22, 7, 12, 17, 22, 7, 12, 17, 22, 7, 12, 17, 22,
   5, 9, 14, 20, 5, 9, 14, 20, 5, 9, 14, 20, 5, 9, 14, 20,
   4, 11, 16, 23, 4, 11, 16, 23, 4, 11, 16, 23, 4, 11, 16, 23,
   6, 10, 15, 21, 6, 10, 15, 21, 6, 10, 15, 21, 6, 10, 15, 21]

/-- Decode a chunk of bytes into little-endian 32-bit words. -/
def leWords : List Nat → List Nat
  | b0 :: b1 :: b2 :: b3 :: rest =>
    (b0 + 256 * b1 + 65536 * b2 + 16777216 * b3) :: leWords rest
  | _ => []

/-- Serialize a 32-bit word as four little-endian bytes. -/
def leBytes (w : Nat) : List Nat :=
  [w % 256, w / 256 % 256, w / 65536 % 256, w / 16777216 % 256]

/-- Serialize a 64-bit length as eight little-endian bytes. -/
def lenBytes64 (L : Nat) : List Nat :=
  [L % 256, L / 256 % 256, L / 65536 % 256, L / 16777216 % 256,
   L / 4294967296 % 256, L / 1099511627776 % 256,
   L / 281474976710656 % 256, L / 72057594037927936 % 256]

/-- MD5 padding: append the `0x80` marker, zero bytes up to 56 mod 64, then
the 64-bit little-endian bit length. -/
def md5pad (msg : List Nat) : List Nat :=
  msg ++ 128 :: List.replicate ((119 - msg.length % 64) % 64) 0
      ++ lenBytes64 (8 * msg.length)

/-- One MD5 round: state `(a, b, c, d)`, message words `m`, round index `i`. -/
def md5round (m : List Nat) (st : Nat × Nat × Nat × Nat) (i : Nat) :
    Nat × Nat × Nat × Nat :=
  let a := st.1
  let b := st.2.1
  let c := st.2.2.1
  let d := st.2.2.2
  let fg : Nat × Nat :=
    if i < 16 then (mdF b c d, i)
    else if i < 32 then (mdG b c d, (5 * i + 1) % 16)
    else if i < 48 then (mdH b c d, (3 * i + 5) % 16)
    else (mdI b c d, (7 * i) % 16)
  let tmp := a + fg.1 + mdK.getD i 0 + m.getD fg.2 0
  (d, w32 (b + rotl tmp (mdS.getD i 0)), b, c)

/-- Process one 64-byte chunk through the 64 MD5 rounds and add the result
to the incoming state. -/
def md5chunk (st : Nat × Nat × Nat × Nat) (chunk : List Nat) :
    Nat × Nat × Nat × Nat :=
  let r := (List.range 64).foldl (md5round (leWords chunk)) st
  (w32 (st.1 + r.1), w32 (st.2.1 + r.2.1),
   w32 (st.2.2.1 + r.2.2.1), w32 (st.2.2.2 + r.2.2.2))

/-- Cut a byte list into 64-byte chunks. -/
def toChunks (l : List Nat) : List (List Nat) :=
  if l.isEmpty then []
  else l.take 64 :: toChunks (l.drop 64)
termination_by l.length
decreasing_by
  simp only [List.length_drop]
  cases l with
  | nil => simp [List.isEmpty] at *
  | cons a t => simp; omega

/-- Model of `hashlib.md5(...).digest()`: the 16-byte MD5 digest of a byte
list. -/
def md5bytes (msg : List Nat) : List Nat :=
  let st := (toChunks (md5pad msg)).foldl md5chunk
    (0x67452301, 0xefcdab89, 0x98badcfe, 0x10325476)
  leBytes st.1 ++ leBytes st.2.1 ++ leBytes st.2.2.1 ++ leBytes st.2.2.2

/-! ## KeyRegistry (`generate_fingerprint`, `install_authorized_key`,
`upload_key`) -/

/-- Lowercase hexadecimal digit character for a value below 16. -/
def hexDigitChar (n : Nat) : Char :=
  if n < 10 then Char.ofNat (48 + n) else Char.ofNat (87 + n)

/-- Python `'%02x' % n`: lowercase hexadecimal, zero-padded to at least two
digits.  Only byte values (below 256) occur in this development. -/
def pyFormat02x (n : Nat) : String :=
  if n < 256 then ⟨[hexDigitChar (n / 16), hexDigitChar (n % 16)]⟩
  else ⟨Nat.toDigits 16 n⟩

/-- `generate_fingerprint` (gitreceive.py:74-81): the MD5 digest of the
base64-decoded key payload, rendered as colon-separated `'%02x'` bytes.
`none` is the uncaught `binascii.Error` propagating out of
`base64.b64decode` when the payload has incorrect padding. -/
def generate_fingerprint (key : String) : Option String :=
  (b64decode key).map
    (fun bytes => String.intercalate ":" ((md5bytes bytes).map pyFormat02x))

/-- Outcome of `install_authorized_key`.  When the key line has fewer than 2
fields the source executes `print('Invalid key %s' % key)` where `key` is an
undefined name (the parameter is `line`), so the call raises an uncaught
`NameError`; `nameError` models that exception.  `b64Error` models the
uncaught `binascii.Error` raised inside `generate_fingerprint` when the
second field is not correctly padded base64. -/
inductive InstallOutcome where
  | nameError
  | b64Error
  | ok (fingerprint : String)
deriving DecidableEq, Repr

set_option linter.unusedVariables false in
/-- `install_authorized_key` (gitreceive.py:83-110): validate the key line,
compute the fingerprint, resolve the identity name, and append one
forced-command line to the authorized-keys store (modelled as the list of its
lines).  `name` is `none` when the operator passed no explicit name
(Python `None`); split tokens are never empty, so Python's
`len(parts) > 2 and parts[2] or fingerprint` is `parts[2]` when a third field
exists and the fingerprint otherwise, which `List.getD` renders directly. -/
def install_authorized_key (line : String) (name : Option String)
    (home_dir git_user this_script : String) (keystore : List String) :
    List String × InstallOutcome :=
  let parts := pysplit line
  if parts.length < 2 then (keystore, .nameError)
  else
    match generate_fingerprint (parts.getD 1 "") with
    | none => (keystore, .b64Error)
    | some fingerprint =>
      let name' := match name with
        | none => parts.getD 2 fingerprint
        | some n => if n = "" then parts.getD 2 fingerprint else n
      let forced_command :=
        "GITUSER=" ++ git_user ++ " " ++ this_script ++ " run " ++ name' ++ " " ++ fingerprint
      let key_options :=
        "command=\"" ++ forced_command ++
        "\",no-agent-forwarding,no-pty,no-user-rc,no-X11-forwarding,no-port-forwarding " ++
        pyStripWs line ++ "\n"
      (keystore ++ [key_options], .ok fingerprint)

/-- Outcome of `upload_key`: either the whole standard input was consumed,
or an uncaught exception from `install_authorized_key` (the `NameError` of
gitreceive.py:98, or the `binascii.Error` from decoding) aborted the
process. -/
inductive UploadOutcome where
  | completed
  | crashedNameError
  | crashedB64Error
deriving DecidableEq, Repr

/-- `upload_key` (gitreceive.py:177-181): for each standard-input line (lines
as yielded by Python file iteration, i.e. still carrying their trailing
newline), install it unless the line is falsy (the empty string) or starts
with `#`.  An exception from `install_authorized_key` propagates and aborts
the remaining lines. -/
def upload_key (stdin : List String) (name : Option String)
    (home_dir git_user this_script : String) (keystore : List String) :
    List String × UploadOutcome :=
  match stdin with
  | [] => (keystore, .completed)
  | line :: rest =>
    if line != "" && !pyStartsWith "#" line then
      match install_authorized_key line name home_dir git_user this_script keystore with
      | (ks, .nameError) => (ks, .crashedNameError)
      | (ks, .b64Error) => (ks, .crashedB64Error)
      | (ks, .ok _) => upload_key rest name home_dir git_user this_script ks
    else upload_key rest name home_dir git_user this_script keystore

/-! ## CommandDispatcher (`parse_repo_from_ssh_command`, `ensure_bare_repo`,
`ensure_prereceive_hook`, `run`, `main`) -/

/-- `parse_repo_from_ssh_command` (gitreceive.py:112-125): second
whitespace token of the command, stripped of surrounding single quotes, then
surrounding double quotes, then every leading `/`; `none` when there is no
second token (the `IndexError` caught by the bare `except`) or when the
result contains `..` anywhere. -/
def parse_repo_from_ssh_command (cmd : String) : Option String :=
  match (pysplit cmd)[1]? with
  | none => none
  | some tok =>
    let path := pyLstripChar '/' (pyStripChar '"' (pyStripChar '\'' tok))
    if containsSub ".." path then none else some path

/-- Filesystem state seen by the dispatcher: which paths exist
(`os.path.exists`) and the contents of files written by this program. -/
structure SysState where
  existing : List String
  files : List (String × String)
deriving DecidableEq, Repr

/-- `os.path.exists`. -/
def SysState.pathExists (st : SysState) (p : String) : Bool :=
  decide (p ∈ st.existing)

/-- Content of a file previously written by this program, if any. -/
def SysState.fileContent (st : SysState) (p : String) : Option String :=
  (st.files.find? (fun e => e.1 == p)).map (fun e => e.2)

/-- `open(p, 'w')` followed by a full write: the file now exists and its
content replaces any earlier content. -/
def writeFile (st : SysState) (p content : String) : SysState :=
  { existing := if st.pathExists p then st.existing else p :: st.existing,
    files := (p, content) :: st.files.filter (fun e => e.1 != p) }

/-- Externally observable actions of one dispatch. -/
inductive Ev where
  | gitInit (repo_path : String)
  | hookWrite (path content : String)
  | setEnv (name value : String)
  | chdir (dir : String)
  | gitShell (argv : List String)
deriving DecidableEq, Repr

/-- `ensure_bare_repo` (gitreceive.py:127-132): run `git init --bare` only
when the path does not exist yet (the init creates it). -/
def ensure_bare_repo (st : SysState) (repo_path : String) : SysState × List Ev :=
  if st.pathExists repo_path then (st, [])
  else ({ st with existing := repo_path :: st.existing }, [.gitInit repo_path])

/-- Content of the pre-receive hook written by `ensure_prereceive_hook`. -/
def hookScript (this_script : String) : String :=
  "#!/bin/bash\ncat | " ++ this_script ++ " hook\n"

/-- `ensure_prereceive_hook` (gitreceive.py:134-146): unconditionally
(re)write `<repo>/hooks/pre-receive` with the fixed hook script. -/
def ensure_prereceive_hook (st : SysState) (repo_path this_script : String) :
    SysState × List Ev :=
  (writeFile st (repo_path ++ "/hooks/pre-receive") (hookScript this_script),
   [.hookWrite (repo_path ++ "/hooks/pre-receive") (hookScript this_script)])

/-- How `run` ends: `missingArgs` and `prohibited` are the two diagnostic
`return False` paths; `envKeyError` is the uncaught `KeyError` raised by
`os.environ['SSH_ORIGINAL_COMMAND']` when that variable is absent; `done`
means the git shell was invoked. -/
inductive RunRet where
  | missingArgs
  | envKeyError
  | prohibited
  | done
deriving DecidableEq, Repr

/-- `run` (gitreceive.py:184-210): the dispatch entry point invoked by the
forced command.  `ssh` is `SSH_ORIGINAL_COMMAND` (`none` when unset).  The
Python guard `if not repo` is false both for `None` and for the empty
string, hence the extra `repo = ""` test.  Returns the final filesystem
state, the event trace, and the outcome. -/
def run (argv : List String) (ssh : Option String) (st : SysState)
    (home_dir this_script : String) : SysState × List Ev × RunRet :=
  if argv.length < 4 then (st, [], .missingArgs)
  else
    match ssh with
    | none => (st, [], .envKeyError)
    | some cmd =>
      match parse_repo_from_ssh_command cmd with
      | none => (st, [], .prohibited)
      | some repo =>
        if repo = "" then (st, [], .prohibited)
        else
          let repo_path := home_dir ++ "/" ++ repo
          let s1 := ensure_bare_repo st repo_path
          let s2 := ensure_prereceive_hook s1.1 repo_path this_script
          let verb := (pysplit cmd).getD 0 ""
          (s2.1,
           s1.2 ++ s2.2 ++
             [.setEnv "RECEIVE_USER" (argv.getD 2 ""),
              .setEnv "RECEIVE_FINGERPRINT" (argv.getD 3 ""),
              .setEnv "RECEIVE_REPO" repo,
              .chdir home_dir,
              .gitShell ["git-shell", "-c", verb ++ " '" ++ repo ++ "'"]],
           .done)

/-- The git-shell invocations recorded in an event trace. -/
def gitShellCalls : List Ev → List (List String)
  | [] => []
  | .gitShell a :: rest => a :: gitShellCalls rest
  | _ :: rest => gitShellCalls rest

/-- Process exit status of `main` (gitreceive.py:225-237) for the `run`
subcommand: `main` discards the command function's return value, so the
interpreter exits 0 even when `run` returned `False` after printing an
error; only an exception escaping `run` (the `KeyError` for a missing
`SSH_ORIGINAL_COMMAND`) makes the interpreter exit nonzero (status 1). -/
def main_run_exit (argv : List String) (ssh : Option String) (st : SysState)
    (home_dir this_script : String) : Nat :=
  match (run argv ssh st home_dir this_script).2.2 with
  | .envKeyError => 1
  | _ => 0

/-! ## PushPipeline (`trigger_receiver`) -/

/-- Source-level default of the master-branch-only gate (gitreceive.py:11). -/
def RUN_ONLY_ON_MASTER_BRANCH : Bool := false

/-- One invocation of the external receiver script, with its positional
argument contract (gitreceive.py:164). -/
structure ReceiverCall where
  repo : String
  newrev : String
  user : String
  fingerprint : String
deriving DecidableEq, Repr

/-- `trigger_receiver` (gitreceive.py:151-168), parameterized by the
`RUN_ONLY_ON_MASTER_BRANCH` gate it reads.  `recv` gives the captured
standard output of the receiver process for a given invocation; `stdin` is
the pre-receive stream, one element per line.  Returns the receiver
invocations and the lines printed back to the pushing client, both in
order. -/
def trigger_receiver (onlyMaster : Bool) (repo user fingerprint : String)
    (recv : ReceiverCall → String) (stdin : List String) :
    List ReceiverCall × List String :=
  match stdin with
  | [] => ([], [])
  | line :: rest =>
    let restR := trigger_receiver onlyMaster repo user fingerprint recv rest
    let tmp := pysplit line
    if 2 < tmp.length then
      if tmp.getD 2 "" = "refs/heads/master" || !onlyMaster then
        let call : ReceiverCall := ⟨repo, tmp.getD 1 "", user, fingerprint⟩
        ((call :: restR.1),
         (splitNl (recv call)).map (afterFirstMarker "remote: ") ++ restR.2)
      else restR
    else restR

/-! ## Auxiliary predicates and spec-worded comparison definitions -/

/-- Is `c` a lowercase hexadecimal digit? -/
def isLowerHexDigit (c : Char) : Bool :=
  ('0' ≤ c && c ≤ '9') || ('a' ≤ c && c ≤ 'f')

/-- Is `s` a two-character string of lowercase hexadecimal digits? -/
def isHexPair (s : String) : Bool :=
  s.toList.length == 2 && s.toList.all isLowerHexDigit

/-- Modelled from the spec's words, for refinement comparison with
`parse_repo_from_ssh_command`: "split the original command on whitespace,
take the second token, strip surrounding quote characters, strip a single
leading path separator", rejecting when the result contains `..` anywhere.
The source instead strips every leading path separator (`lstrip('/')`). -/
def spec_parse_path (cmd : String) : Option String :=
  match (pysplit cmd)[1]? with
  | none => none
  | some tok =>
    let unq := pyStripChar '"' (pyStripChar '\'' tok)
    let path : String := if pyStartsWith "/" unq then ⟨unq.toList.drop 1⟩ else unq
    if containsSub ".." path then none else some path

/-! ## Supporting lemmas -/

/-- A command whose second token still contains `..` after quote and
leading-slash stripping is rejected by the parser. -/
theorem parse_none_of_dotdot {cmd tok : String}
    (htok : (pysplit cmd)[1]? = some tok)
    (hdot : containsSub ".."
      (pyLstripChar '/' (pyStripChar '"' (pyStripChar '\'' tok))) = true) :
    parse_repo_from_ssh_command cmd = none := by
  simp [parse_repo_from_ssh_command, htok, hdot]

/-- A command whose second token is clean after stripping parses to it. -/
theorem parse_some_of_clean {cmd tok repo : String}
    (htok : (pysplit cmd)[1]? = some tok)
    (hrepo : repo = pyLstripChar '/' (pyStripChar '"' (pyStripChar '\'' tok)))
    (hsafe : containsSub ".." repo = false) :
    parse_repo_from_ssh_command cmd = some repo := by
  subst hrepo
  simp [parse_repo_from_ssh_command, htok, hsafe]

/-! ## C1 -/

/-- C1: for every original client command whose second whitespace token,
after quote-stripping and leading-slash-stripping, contains the literal
substring `..` anywhere, dispatch rejects the session (the
"Arbitrary ssh prohibited" `ProtocolError` path) and performs no side
effect: the filesystem state is unchanged and the event trace is empty, so
no repository is initialized, no hook file is written and the git shell is
never invoked. -/
theorem C1_traversal_rejected (argv : List String) (cmd tok : String)
    (st : SysState) (home_dir this_script : String)
    (hargv : 4 ≤ argv.length)
    (htok : (pysplit cmd)[1]? = some tok)
    (hdot : containsSub ".."
      (pyLstripChar '/' (pyStripChar '"' (pyStripChar '\'' tok))) = true) :
    run argv (some cmd) st home_dir this_script = (st, [], RunRet.prohibited) := by
  have hp := parse_none_of_dotdot htok hdot
  unfold run
  rw [if_neg (by omega)]
  simp [hp]

/-- Witness for C1 at the concrete command `git-receive-pack '../escape'`. -/
theorem C1_traversal_rejected_witness :
    4 ≤ (["gitreceive.py", "run", "alice", "aa"] : List String).length ∧
    (pysplit "git-receive-pack '../escape'")[1]? = some "'../escape'" ∧
    containsSub ".." (pyLstripChar '/'
      (pyStripChar '"' (pyStripChar '\'' "'../escape'"))) = true ∧
    run ["gitreceive.py", "run", "alice", "aa"]
        (some "git-receive-pack '../escape'") ⟨[], []⟩ "/home/git" "/gitreceive.py"
      = (⟨[], []⟩, [], RunRet.prohibited) :=
  ⟨by decide, by decide, by decide,
   C1_traversal_rejected ["gitreceive.py", "run", "alice", "aa"]
     "git-receive-pack '../escape'" "'../escape'" ⟨[], []⟩ "/home/git"
     "/gitreceive.py" (by decide) (by decide) (by decide)⟩

/-! ## C2 -/

/-- C2 (code bug): when `SSH_ORIGINAL_COMMAND` is present but cannot be
parsed (here the empty command), `run` takes the "Arbitrary ssh prohibited"
path — no git transport is reached and the diagnostic is printed — but
`main` discards `run`'s `False` return value, so the process exit status is
0, contradicting the claimed non-zero termination.  Only when the variable
is absent does the process exit non-zero (status 1), via the uncaught
`KeyError`. -/
theorem C2_exit_status (st : SysState) :
    run ["gitreceive.py", "run", "alice", "aa"] (some "") st "/home/git"
        "/gitreceive.py" = (st, [], RunRet.prohibited) ∧
    main_run_exit ["gitreceive.py", "run", "alice", "aa"] (some "") st
        "/home/git" "/gitreceive.py" = 0 ∧
    run ["gitreceive.py", "run", "alice", "aa"] none st "/home/git"
        "/gitreceive.py" = (st, [], RunRet.envKeyError) ∧
    main_run_exit ["gitreceive.py", "run", "alice", "aa"] none st
        "/home/git" "/gitreceive.py" = 1 :=
  ⟨rfl, rfl, rfl, rfl⟩

/-! ## C5 -/

/-- C5 (code bug): installing a key line with fewer than 2
whitespace-separated fields appends nothing to the key-store, but instead of
reporting `InvalidKey` and continuing, the source evaluates
`'Invalid key %s' % key` where `key` is an undefined name
(gitreceive.py:98; the parameter is `line`), raising an uncaught
`NameError` that terminates the process and aborts any batched install. -/
theorem C5_invalid_key (nm : Option String) (hd gu ts : String)
    (ks : List String) :
    install_authorized_key "ssh-rsa\n" nm hd gu ts ks
      = (ks, InstallOutcome.nameError) :=
  rfl

/-! ## C10 -/

/-- C10 (code bug): `upload_key` skips comment lines, but a blank
standard-input line is `"\n"` (file iteration keeps the newline), which is
truthy in Python, so the guard `if line` does not skip it: installation is
attempted on the blank line and crashes with the `NameError` of
gitreceive.py:98 (the line has fewer than 2 fields), aborting the batch
instead of skipping. -/
theorem C10_blank_not_skipped (nm : Option String) (hd gu ts : String)
    (ks : List String) :
    upload_key ["\n"] nm hd gu ts ks = (ks, UploadOutcome.crashedNameError) ∧
    (∀ rest : List String,
      upload_key ("# comment\n" :: rest) nm hd gu ts ks
        = upload_key rest nm hd gu ts ks) :=
  ⟨rfl, fun _ => rfl⟩

/-! ## C3 -/

/-- `gitShellCalls` distributes over trace concatenation. -/
theorem gitShellCalls_append (a b : List Ev) :
    gitShellCalls (a ++ b) = gitShellCalls a ++ gitShellCalls b := by
  induction a with
  | nil => simp [gitShellCalls]
  | cons e rest ih => cases e <;> simp [gitShellCalls, ih]

/-- `ensure_bare_repo` never invokes the git shell. -/
theorem gitShellCalls_ensure_bare_repo (st : SysState) (p : String) :
    gitShellCalls (ensure_bare_repo st p).2 = [] := by
  unfold ensure_bare_repo
  split <;> simp [gitShellCalls]

/-- C3 counterexample: for the original command `git-receive-pack //proj.git`
the source strips *every* leading path separator (`lstrip('/')`) and passes
`proj.git` to the git shell, whereas the claim's "a single leading path
separator" (formalized by `spec_parse_path`) would yield `/proj.git`. -/
theorem C3_counterexample :
    parse_repo_from_ssh_command "git-receive-pack //proj.git" = some "proj.git" ∧
    spec_parse_path "git-receive-pack //proj.git" = some "/proj.git" ∧
    gitShellCalls (run ["gitreceive.py", "run", "alice", "aa"]
        (some "git-receive-pack //proj.git") ⟨[], []⟩ "/home/git"
        "/gitreceive.py").2.1
      = [["git-shell", "-c", "git-receive-pack 'proj.git'"]] ∧
    ("proj.git" : String) ≠ "/proj.git" := by
  refine ⟨rfl, rfl, rfl, by decide⟩

/-- C3 (amended): for every accepted dispatch, the repository path passed to
the git shell equals the second whitespace token of the original command
after stripping surrounding quote characters and **all** leading path
separators, and the git shell is re-invoked with exactly the verb (first
whitespace token) applied to that validated path as its sole argument,
every other token of the original command being discarded. -/
theorem C3_verb_and_path (argv : List String) (cmd tok repo : String)
    (st : SysState) (home_dir this_script : String)
    (hargv : 4 ≤ argv.length)
    (htok : (pysplit cmd)[1]? = some tok)
    (hrepo : repo = pyLstripChar '/' (pyStripChar '"' (pyStripChar '\'' tok)))
    (hsafe : containsSub ".." repo = false)
    (hne : repo ≠ "") :
    (run argv (some cmd) st home_dir this_script).2.2 = RunRet.done ∧
    gitShellCalls (run argv (some cmd) st home_dir this_script).2.1 =
      [["git-shell", "-c", (pysplit cmd).getD 0 "" ++ " '" ++ repo ++ "'"]] := by
  have hp := parse_some_of_clean htok hrepo hsafe
  unfold run
  rw [if_neg (by omega)]
  simp [hp, hne, ensure_prereceive_hook, gitShellCalls_append,
    gitShellCalls_ensure_bare_repo, gitShellCalls]

/-- Witness for C3 at the spec's own example `git-receive-pack '/proj.git'`:
the verb is `git-receive-pack` and the path `proj.git`. -/
theorem C3_verb_and_path_witness :
    4 ≤ (["gitreceive.py", "run", "alice", "aa"] : List String).length ∧
    (pysplit "git-receive-pack '/proj.git'")[1]? = some "'/proj.git'" ∧
    ("proj.git" : String)
      = pyLstripChar '/' (pyStripChar '"' (pyStripChar '\'' "'/proj.git'")) ∧
    containsSub ".." "proj.git" = false ∧
    ("proj.git" : String) ≠ "" ∧
    ((run ["gitreceive.py", "run", "alice", "aa"]
        (some "git-receive-pack '/proj.git'") ⟨[], []⟩ "/home/git"
        "/gitreceive.py").2.2 = RunRet.done ∧
      gitShellCalls (run ["gitreceive.py", "run", "alice", "aa"]
          (some "git-receive-pack '/proj.git'") ⟨[], []⟩ "/home/git"
          "/gitreceive.py").2.1 =
        [["git-shell", "-c",
          (pysplit "git-receive-pack '/proj.git'").getD 0 "" ++ " '" ++ "proj.git" ++ "'"]]) :=
  ⟨by decide, by decide, by decide, by decide, by decide,
   C3_verb_and_path ["gitreceive.py", "run", "alice", "aa"]
     "git-receive-pack '/proj.git'" "'/proj.git'" "proj.git" ⟨[], []⟩
     "/home/git" "/gitreceive.py" (by decide) (by decide) (by decide)
     (by decide) (by decide)⟩

/-! ## C4 -/

/-- The four little-endian bytes of a word are byte values. -/
theorem leBytes_lt (w : Nat) : ∀ b ∈ leBytes w, b < 256 := by
  simp only [leBytes, List.mem_cons, List.not_mem_nil, or_false]
  rintro b (rfl | rfl | rfl | rfl) <;> omega

/-- The MD5 digest has 16 bytes. -/
theorem md5bytes_length (msg : List Nat) : (md5bytes msg).length = 16 := by
  simp [md5bytes, leBytes]

/-- Every element of the MD5 digest is a byte value. -/
theorem md5bytes_lt (msg : List Nat) : ∀ b ∈ md5bytes msg, b < 256 := by
  intro b hb
  simp only [md5bytes, List.mem_append] at hb
  rcases hb with ((h | h) | h) | h <;> exact leBytes_lt _ _ h

/-- `hexDigitChar` yields a lowercase hexadecimal digit on values below 16. -/
theorem hexDigitChar_isLowerHexDigit :
    ∀ n, n < 16 → isLowerHexDigit (hexDigitChar n) = true := by decide

/-- `'%02x'` of a byte value is a two-character lowercase hexadecimal
string. -/
theorem pyFormat02x_isHexPair {n : Nat} (h : n < 256) :
    isHexPair (pyFormat02x n) = true := by
  have h1 : n / 16 < 16 := by omega
  have h2 : n % 16 < 16 := by omega
  have hl : (⟨[hexDigitChar (n / 16), hexDigitChar (n % 16)]⟩ : String).toList
      = [hexDigitChar (n / 16), hexDigitChar (n % 16)] := rfl
  rw [pyFormat02x, if_pos h]
  simp [isHexPair, hl, hexDigitChar_isLowerHexDigit _ h1,
    hexDigitChar_isLowerHexDigit _ h2]

/-- C4: the fingerprint is a pure function of the decoded key payload
bytes — two key lines whose second fields decode alike produce the
identical installation outcome, and in particular the identical fingerprint
whenever one is computed (when decoding fails, both raise the same
`binascii.Error` and no fingerprint exists) — and every fingerprint
produced is the colon-separated join of the 16 digest bytes of the decoded
payload, each rendered as a two-digit lowercase hexadecimal pair. -/
theorem C4_fingerprint (l1 l2 k1 k2 : String) (nm1 nm2 : Option String)
    (hd1 gu1 ts1 hd2 gu2 ts2 : String) (ks1 ks2 : List String)
    (h1 : (pysplit l1)[1]? = some k1)
    (h2 : (pysplit l2)[1]? = some k2)
    (hdec : b64decode k1 = b64decode k2) :
    (install_authorized_key l1 nm1 hd1 gu1 ts1 ks1).2
        = (install_authorized_key l2 nm2 hd2 gu2 ts2 ks2).2 ∧
    generate_fingerprint k1 = generate_fingerprint k2 ∧
    (∀ fp, generate_fingerprint k1 = some fp →
      (install_authorized_key l1 nm1 hd1 gu1 ts1 ks1).2 = InstallOutcome.ok fp) ∧
    (∀ k fp, generate_fingerprint k = some fp →
      ∃ bytes, b64decode k = some bytes ∧
        fp = String.intercalate ":" ((md5bytes bytes).map pyFormat02x) ∧
        ((md5bytes bytes).map pyFormat02x).length = 16 ∧
        (∀ p ∈ (md5bytes bytes).map pyFormat02x, isHexPair p = true)) := by
  have hpure : generate_fingerprint k1 = generate_fingerprint k2 := by
    simp [generate_fingerprint, hdec]
  have hout : ∀ (l k : String) (nm : Option String) (hd gu ts : String)
      (ks : List String), (pysplit l)[1]? = some k →
      (install_authorized_key l nm hd gu ts ks).2
        = match generate_fingerprint k with
          | none => InstallOutcome.b64Error
          | some fp => InstallOutcome.ok fp := by
    intro l k nm hd gu ts ks h
    have hlen : ¬ (pysplit l).length < 2 := by
      intro hc
      rw [List.getElem?_eq_none (by omega)] at h
      exact Option.noConfusion h
    have hk : (pysplit l).getD 1 "" = k := by simp [List.getD, h]
    simp only [install_authorized_key]
    rw [if_neg hlen, hk]
    cases generate_fingerprint k <;> rfl
  refine ⟨?_, hpure, ?_, ?_⟩
  · rw [hout l1 k1 nm1 hd1 gu1 ts1 ks1 h1, hout l2 k2 nm2 hd2 gu2 ts2 ks2 h2, hpure]
  · intro fp hfp
    rw [hout l1 k1 nm1 hd1 gu1 ts1 ks1 h1, hfp]
  · intro k fp hfp
    cases hOpt : b64decode k with
    | none => rw [generate_fingerprint, hOpt] at hfp; exact Option.noConfusion hfp
    | some bytes =>
      rw [generate_fingerprint, hOpt, Option.map_some'] at hfp
      refine ⟨bytes, rfl, (Option.some.injEq _ _ ▸ hfp).symm,
        by simp [md5bytes_length], ?_⟩
      intro p hp
      rcases List.mem_map.mp hp with ⟨b, hb, rfl⟩
      exact pyFormat02x_isHexPair (md5bytes_lt _ _ hb)

/-- Witness for C4 at two key lines with different whitespace and comment
fields but identical (and correctly padded) key material `QUJD`. -/
theorem C4_fingerprint_witness :
    (pysplit "ssh-rsa QUJD alice\n")[1]? = some "QUJD" ∧
    (pysplit "  ssh-rsa   QUJD  \n")[1]? = some "QUJD" ∧
    b64decode "QUJD" = b64decode "QUJD" ∧
    ((install_authorized_key "ssh-rsa QUJD alice\n" none "/home/git" "git"
        "/gitreceive.py" []).2
      = (install_authorized_key "  ssh-rsa   QUJD  \n" (some "bob") "/home/git"
          "git" "/gitreceive.py" []).2 ∧
      generate_fingerprint "QUJD" = generate_fingerprint "QUJD" ∧
      (∀ fp, generate_fingerprint "QUJD" = some fp →
        (install_authorized_key "ssh-rsa QUJD alice\n" none "/home/git" "git"
          "/gitreceive.py" []).2 = InstallOutcome.ok fp) ∧
      (∀ k fp, generate_fingerprint k = some fp →
        ∃ bytes, b64decode k = some bytes ∧
          fp = String.intercalate ":" ((md5bytes bytes).map pyFormat02x) ∧
          ((md5bytes bytes).map pyFormat02x).length = 16 ∧
          (∀ p ∈ (md5bytes bytes).map pyFormat02x, isHexPair p = true))) :=
  ⟨by decide, by decide, rfl,
   C4_fingerprint "ssh-rsa QUJD alice\n" "  ssh-rsa   QUJD  \n" "QUJD" "QUJD"
     none (some "bob") "/home/git" "git" "/gitreceive.py" "/home/git" "git"
     "/gitreceive.py" [] [] (by decide) (by decide) rfl⟩

/-! ## C6 -/

/-- After `ensure_bare_repo` the repository path exists. -/
theorem ensure_bare_repo_mem (st : SysState) (p : String) :
    p ∈ (ensure_bare_repo st p).1.existing := by
  unfold ensure_bare_repo
  split
  · next h => simpa [SysState.pathExists] using h
  · simp

/-- `ensure_bare_repo` does nothing when the path already exists. -/
theorem ensure_bare_repo_of_mem (st : SysState) (p : String)
    (h : p ∈ st.existing) : ensure_bare_repo st p = (st, []) := by
  unfold ensure_bare_repo
  rw [if_pos (by simpa [SysState.pathExists] using h)]

/-- `writeFile` preserves existing paths. -/
theorem writeFile_mem (st : SysState) (p c q : String) (h : q ∈ st.existing) :
    q ∈ (writeFile st p c).existing := by
  unfold writeFile
  split <;> simp [h]

/-- The written path exists after `writeFile`. -/
theorem writeFile_self_mem (st : SysState) (p c : String) :
    p ∈ (writeFile st p c).existing := by
  unfold writeFile
  split
  · next h => simpa [SysState.pathExists] using h
  · simp

/-- Writing the same content to the same path twice is the same as writing
it once. -/
theorem writeFile_idem (st : SysState) (p c : String) :
    writeFile (writeFile st p c) p c = writeFile st p c := by
  have hmem := writeFile_self_mem st p c
  unfold writeFile
  rw [if_pos]
  · simp [List.filter_filter]
  · simp only [SysState.pathExists]
    exact decide_eq_true (writeFile_self_mem st p c)

/-- The content read back from a written file. -/
theorem writeFile_fileContent (st : SysState) (p c : String) :
    (writeFile st p c).fileContent p = some c := by
  simp [writeFile, SysState.fileContent, List.find?]

/-- The result of an accepted dispatch, in closed form. -/
theorem run_accepted (argv : List String) (cmd repo : String) (st : SysState)
    (home_dir this_script : String)
    (hargv : 4 ≤ argv.length)
    (hp : parse_repo_from_ssh_command cmd = some repo)
    (hne : repo ≠ "") :
    run argv (some cmd) st home_dir this_script =
      (writeFile (ensure_bare_repo st (home_dir ++ "/" ++ repo)).1
         (home_dir ++ "/" ++ repo ++ "/hooks/pre-receive") (hookScript this_script),
       (ensure_bare_repo st (home_dir ++ "/" ++ repo)).2 ++
         [Ev.hookWrite (home_dir ++ "/" ++ repo ++ "/hooks/pre-receive")
            (hookScript this_script),
          Ev.setEnv "RECEIVE_USER" (argv.getD 2 ""),
          Ev.setEnv "RECEIVE_FINGERPRINT" (argv.getD 3 ""),
          Ev.setEnv "RECEIVE_REPO" repo,
          Ev.chdir home_dir,
          Ev.gitShell ["git-shell", "-c",
            (pysplit cmd).getD 0 "" ++ " '" ++ repo ++ "'"]],
       RunRet.done) := by
  unfold run
  rw [if_neg (by omega)]
  simp [hp, hne, ensure_prereceive_hook]

/-- C6: dispatching twice on a valid, traversal-free repository path is
idempotent — the second dispatch succeeds (reaches the git shell), performs
no repository re-initialization, leaves the filesystem state exactly as
after the first dispatch, and the pre-receive hook file's content after the
first dispatch (hence also after the second) is the fixed hook script,
rewritten rather than duplicated. -/
theorem C6_idempotent (argv : List String) (cmd repo : String) (st : SysState)
    (home_dir this_script : String)
    (hargv : 4 ≤ argv.length)
    (hp : parse_repo_from_ssh_command cmd = some repo)
    (hne : repo ≠ "") :
    (run argv (some cmd)
        (run argv (some cmd) st home_dir this_script).1 home_dir this_script).1
      = (run argv (some cmd) st home_dir this_script).1 ∧
    (run argv (some cmd)
        (run argv (some cmd) st home_dir this_script).1 home_dir this_script).2.2
      = RunRet.done ∧
    (∀ p, Ev.gitInit p ∉
      (run argv (some cmd)
        (run argv (some cmd) st home_dir this_script).1 home_dir this_script).2.1) ∧
    (run argv (some cmd) st home_dir this_script).1.fileContent
        (home_dir ++ "/" ++ repo ++ "/hooks/pre-receive")
      = some (hookScript this_script) := by
  have h1 := run_accepted argv cmd repo st home_dir this_script hargv hp hne
  have hmem1 : (home_dir ++ "/" ++ repo) ∈
      (run argv (some cmd) st home_dir this_script).1.existing := by
    rw [h1]
    exact writeFile_mem _ _ _ _ (ensure_bare_repo_mem st _)
  have h2 := run_accepted argv cmd repo
    (run argv (some cmd) st home_dir this_script).1 home_dir this_script hargv hp hne
  have hbare := ensure_bare_repo_of_mem
    (run argv (some cmd) st home_dir this_script).1 (home_dir ++ "/" ++ repo) hmem1
  refine ⟨?_, ?_, ?_, ?_⟩
  · rw [h2, hbare]
    conv_rhs => rw [h1]
    rw [h1]
    exact writeFile_idem _ _ _
  · rw [h2]
  · intro p
    rw [h2, hbare]
    simp
  · rw [h1]
    exact writeFile_fileContent _ _ _

/-- Witness for C6 at the concrete command `git-receive-pack 'proj.git'`,
from the empty filesystem state. -/
theorem C6_idempotent_witness :
    4 ≤ (["gitreceive.py", "run", "alice", "aa"] : List String).length ∧
    parse_repo_from_ssh_command "git-receive-pack 'proj.git'" = some "proj.git" ∧
    ("proj.git" : String) ≠ "" ∧
    ((run ["gitreceive.py", "run", "alice", "aa"]
        (some "git-receive-pack 'proj.git'")
        (run ["gitreceive.py", "run", "alice", "aa"]
          (some "git-receive-pack 'proj.git'") ⟨[], []⟩ "/home/git" "/gitreceive.py").1
        "/home/git" "/gitreceive.py").1
      = (run ["gitreceive.py", "run", "alice", "aa"]
          (some "git-receive-pack 'proj.git'") ⟨[], []⟩ "/home/git" "/gitreceive.py").1 ∧
      (run ["gitreceive.py", "run", "alice", "aa"]
        (some "git-receive-pack 'proj.git'")
        (run ["gitreceive.py", "run", "alice", "aa"]
          (some "git-receive-pack 'proj.git'") ⟨[], []⟩ "/home/git" "/gitreceive.py").1
        "/home/git" "/gitreceive.py").2.2 = RunRet.done ∧
      (∀ p, Ev.gitInit p ∉
        (run ["gitreceive.py", "run", "alice", "aa"]
          (some "git-receive-pack 'proj.git'")
          (run ["gitreceive.py", "run", "alice", "aa"]
            (some "git-receive-pack 'proj.git'") ⟨[], []⟩ "/home/git" "/gitreceive.py").1
          "/home/git" "/gitreceive.py").2.1) ∧
      (run ["gitreceive.py", "run", "alice", "aa"]
          (some "git-receive-pack 'proj.git'") ⟨[], []⟩ "/home/git" "/gitreceive.py").1.fileContent
          ("/home/git" ++ "/" ++ "proj.git" ++ "/hooks/pre-receive")
        = some (hookScript "/gitreceive.py")) :=
  ⟨by decide, by decide, by decide,
   C6_idempotent ["gitreceive.py", "run", "alice", "aa"]
     "git-receive-pack 'proj.git'" "proj.git" ⟨[], []⟩ "/home/git"
     "/gitreceive.py" (by decide) (by decide) (by decide)⟩

/-! ## C7 -/

/-- C7: with the master-branch-only gate enabled, a well-formed pre-receive
line for `refs/heads/feature` produces zero receiver invocations and no
output, while one for `refs/heads/master` produces exactly one invocation;
with the gate disabled (the source's default, `RUN_ONLY_ON_MASTER_BRANCH =
false`), every line with at least three fields produces exactly one
invocation. -/
theorem C7_master_gate (r u f : String) (recv : ReceiverCall → String)
    (line : String) :
    ((pysplit line)[2]? = some "refs/heads/feature" →
      trigger_receiver true r u f recv [line] = ([], [])) ∧
    ((pysplit line)[2]? = some "refs/heads/master" →
      (trigger_receiver true r u f recv [line]).1.length = 1) ∧
    (2 < (pysplit line).length →
      (trigger_receiver (RUN_ONLY_ON_MASTER_BRANCH) r u f recv [line]).1.length = 1) := by
  have hne : ("refs/heads/feature" : String) ≠ "refs/heads/master" := by decide
  refine ⟨?_, ?_, ?_⟩
  · intro h
    have hlen : 2 < (pysplit line).length := by
      by_contra hc
      rw [List.getElem?_eq_none (by omega)] at h
      exact Option.noConfusion h
    simp [trigger_receiver, hlen, h, hne]
  · intro h
    have hlen : 2 < (pysplit line).length := by
      by_contra hc
      rw [List.getElem?_eq_none (by omega)] at h
      exact Option.noConfusion h
    simp [trigger_receiver, hlen, h]
  · intro hlen
    simp [trigger_receiver, hlen, RUN_ONLY_ON_MASTER_BRANCH]

/-- Witness for C7 at concrete feature- and master-branch ref lines. -/
theorem C7_master_gate_witness :
    trigger_receiver true "proj.git" "alice" "aa" (fun _ => "out\n")
        ["o n refs/heads/feature\n"] = ([], []) ∧
    (trigger_receiver true "proj.git" "alice" "aa" (fun _ => "out\n")
        ["o n refs/heads/master\n"]).1.length = 1 ∧
    (trigger_receiver RUN_ONLY_ON_MASTER_BRANCH "proj.git" "alice" "aa"
        (fun _ => "out\n") ["o n refs/heads/feature\n"]).1.length = 1 :=
  ⟨(C7_master_gate "proj.git" "alice" "aa" (fun _ => "out\n")
      "o n refs/heads/feature\n").1 (by decide),
   (C7_master_gate "proj.git" "alice" "aa" (fun _ => "out\n")
      "o n refs/heads/master\n").2.1 (by decide),
   (C7_master_gate "proj.git" "alice" "aa" (fun _ => "out\n")
      "o n refs/heads/feature\n").2.2 (by decide)⟩

/-! ## C8 -/

/-- C8 counterexample: for a receiver output line `x remote: y` in which the
marker occurs but not as a leading marker, the relay emits `y` — everything
up to and including the first occurrence of `remote: ` is discarded — which
is neither the line unchanged nor the line with just the marker removed, so
the claim's "marker stripped when present, line unchanged otherwise" fails
as stated. -/
theorem C8_counterexample :
    trigger_receiver false "proj.git" "alice" "aa" (fun _ => "x remote: y")
        ["o n refs/heads/master\n"]
      = ([⟨"proj.git", "n", "alice", "aa"⟩], ["y"]) ∧
    ("y" : String) ≠ "x remote: y" ∧ ("y" : String) ≠ "x y" :=
  ⟨rfl, by decide, by decide⟩

/-- C8 (amended): the lines relayed to the push client are exactly, in
order, the receiver's captured output lines with everything up to and
including the first occurrence of `remote: ` removed when that marker
occurs in the line and the line unchanged otherwise; in particular the
handler output `remote: Building...` is relayed as `Building...`. -/
theorem C8_relay (m : Bool) (r u f : String) (recv : ReceiverCall → String)
    (stdin : List String) :
    (trigger_receiver m r u f recv stdin).2 =
      ((trigger_receiver m r u f recv stdin).1.map
        (fun c => (splitNl (recv c)).map (afterFirstMarker "remote: "))).flatten ∧
    afterFirstMarker "remote: " "remote: Building..." = "Building..." := by
  refine ⟨?_, rfl⟩
  induction stdin with
  | nil => simp [trigger_receiver]
  | cons line rest ih =>
    simp only [trigger_receiver]
    split
    · split
      · simp [ih]
      · exact ih
    · exact ih

/-! ## C9 -/

/-- C9: a pre-receive input line with fewer than three whitespace-separated
fields is skipped — no receiver invocation, no output, no error — and the
remaining lines of the batch are processed exactly as if the malformed line
were absent. -/
theorem C9_skip_malformed (m : Bool) (r u f : String)
    (recv : ReceiverCall → String) (pre post : List String) (line : String)
    (h : (pysplit line).length < 3) :
    trigger_receiver m r u f recv (pre ++ line :: post)
      = trigger_receiver m r u f recv (pre ++ post) := by
  induction pre with
  | nil =>
    simp only [List.nil_append]
    conv_lhs => rw [trigger_receiver]
    rw [if_neg (by omega)]
  | cons x xs ih =>
    simp only [List.cons_append, trigger_receiver, List.append_eq]
    rw [ih]

/-- Witness for C9: the malformed two-field line `oldsha newsha` is skipped
between two well-formed lines. -/
theorem C9_skip_malformed_witness :
    (pysplit "oldsha newsha\n").length < 3 ∧
    trigger_receiver false "proj.git" "alice" "aa" (fun _ => "out\n")
        (["a b refs/heads/master\n"] ++ "oldsha newsha\n" :: ["c d refs/heads/x\n"])
      = trigger_receiver false "proj.git" "alice" "aa" (fun _ => "out\n")
        (["a b refs/heads/master\n"] ++ ["c d refs/heads/x\n"]) :=
  ⟨by decide,
   C9_skip_malformed false "proj.git" "alice" "aa" (fun _ => "out\n")
     ["a b refs/heads/master\n"] ["c d refs/heads/x\n"] "oldsha newsha\n"
     (by decide)⟩

end Gitreceive
